import Mathlib

/-!
Verification development for the cov-backend carpooling marketplace core.

Shallow embedding of the transactional core of the `cov-backend` repository
(Node/Express + Mongoose): rides, bookings, wallets, an append-only
transaction ledger, payouts, ride requests with embedded offers, ratings,
and the Stripe webhook reconciliation handlers.

Modelling conventions:
* All object identifiers (Mongo ObjectIds, Stripe ids) are modelled as `Nat`.
* Monetary amounts are integer minor units (cents), modelled as `Int` where
  the source can produce negative values (ledger amounts, balances) and as
  `Nat` where the source guarantees non-negative integers.
* Timestamps are minutes since an arbitrary epoch (`Int`); the source's
  hour comparisons `(dateA - dateB)/(1000*60*60) < h` become
  `dateA - dateB < h * 60` in minutes.
* JavaScript `Math.round(x)` applied to non-negative quantities of the form
  `amount * (pct / 100)` is modelled with exact rational arithmetic as
  round-half-up, i.e. `(amount * pct + 50) / 100` in `Nat`.
* Each HTTP handler becomes a pure function from a database state `St`
  (plus request parameters and outcomes of external PSP calls) to a
  response and a successor state.  The successor state is the state after
  the handler has run to completion; errors thrown inside the handler and
  caught by the source's `try`/`catch` blocks are reproduced structurally.
* Mongoose conditional `required` validators (which run on `save()` but not
  on `updateMany`/`findByIdAndUpdate`) are modelled by `Booking.validates`.
-/

namespace Cov

/-- JavaScript `Math.round(amount * (pct / 100))` for non-negative integer
`amount` and percentage `pct`, under exact rational semantics: round half-up
of `amount·pct/100`.  Used by `Transaction.createRideEarning`
(src/src/models/PasswordReset.js line 186), the webhook handler, and the
payment-intent controllers. -/
def jsRoundPct (amount pct : Nat) : Nat :=
  (amount * pct + 50) / 100

/-- JavaScript `Math.round(amount * ((100 - pct) / 100))`: the driver share
after the platform fee, as computed in the refund paths
(src/src/controllers/bookingController.js lines 465-467, 519-521,
walletController.js line 824, part_012 lines 788-790). -/
def jsRoundShare (amount pct : Nat) : Nat :=
  (amount * (100 - pct) + 50) / 100

/-! ## Data model (Mongoose schemas) -/

/-- User (src/src/models/User.js): only the field consulted by the payments
core is modelled.  `stripeAccountId` is the Stripe Connect account of a
driver, `none` when no bank account is connected. -/
structure User where
  id : Nat
  stripeAccountId : Option Nat
deriving Repr, DecidableEq

/-- Ride lifecycle states (part_007 lines 79-85). -/
inductive RideStatus
  | active
  | cancelled
  | completed
deriving Repr, DecidableEq

/-- Ride (part_007).  `price_per_seat` is stored in major currency units
(euros): every monetary computation in the controllers multiplies it by 100
to obtain cents. -/
structure Ride where
  id : Nat
  driver_id : Nat
  datetime_start : Int
  seats_total : Int
  seats_left : Int
  luggage_capacity : Int
  luggage_left : Int
  price_per_seat : Nat
  status : RideStatus
deriving Repr, DecidableEq

/-- Booking status (src/src/models/Booking.js lines 27-33). -/
inductive BookingStatus
  | pending
  | accepted
  | rejected
  | cancelled
deriving Repr, DecidableEq

/-- Booking payment status (Booking.js lines 45-50). -/
inductive PaymentStatus
  | pending
  | paid
  | failed
  | refunded
deriving Repr, DecidableEq

/-- Booking payment method (Booking.js lines 51-57). -/
inductive PaymentMethod
  | card
  | wallet
deriving Repr, DecidableEq

/-- Booking refund reason (Booking.js lines 76-82). -/
inductive RefundReason
  | passenger_cancelled
  | driver_cancelled
  | ride_cancelled
  | admin_action
deriving Repr, DecidableEq

/-- Booking (src/src/models/Booking.js).  The compound unique index on
`(ride_id, passenger_id)` (line 91) is enforced at the `create` sites. -/
structure Booking where
  id : Nat
  ride_id : Nat
  passenger_id : Nat
  seats : Nat
  luggage_count : Nat
  status : BookingStatus
  payment_status : PaymentStatus
  payment_method : Option PaymentMethod
  payment_intent_id : Option Nat
  refund_id : Option Nat
  refunded_at : Option Int
  refund_reason : Option RefundReason
deriving Repr, DecidableEq

/-- The conditional `required` validators of the booking schema
(Booking.js lines 51-82) together with the numeric bound `seats ≥ 1`
(line 20).  Mongoose runs these on `document.save()`; a document violating
them makes `save()` reject with a `ValidationError`. -/
def Booking.validates (b : Booking) : Bool :=
  (1 ≤ b.seats) &&
  (if b.payment_status = .paid ∨ b.payment_status = .refunded then
      b.payment_method.isSome
    else true) &&
  (if b.payment_method = some .card ∧
      (b.payment_status = .paid ∨ b.payment_status = .refunded) then
      b.payment_intent_id.isSome
    else true) &&
  (if b.payment_status = .refunded ∧ b.payment_method = some .card then
      b.refund_id.isSome
    else true) &&
  (if b.payment_status = .refunded then b.refunded_at.isSome else true) &&
  (if b.payment_status = .refunded then b.refund_reason.isSome else true)

/-- Wallet (part_005 lines 118-175).  Keyed by `user_id`, which carries a
unique index, so the wallet of a user is identified by the user id. -/
structure Wallet where
  user_id : Nat
  balance : Int
  pending_balance : Int
  total_earned : Int
  total_withdrawn : Int
deriving Repr, DecidableEq

/-- A fresh wallet as created by `Wallet.getOrCreateWallet`
(part_005 lines 178-184): all balances default to 0. -/
def Wallet.fresh (userId : Nat) : Wallet :=
  { user_id := userId, balance := 0, pending_balance := 0,
    total_earned := 0, total_withdrawn := 0 }

/-- Transaction kinds (src/src/models/PasswordReset.js lines 54-68). -/
inductive TransactionType
  | ride_earning
  | ride_payment
  | platform_fee
  | withdrawal
  | withdrawal_failed
  | refund
  | bonus
  | adjustment
deriving Repr, DecidableEq

/-- Transaction status (PasswordReset.js lines 98-104). -/
inductive TransactionStatus
  | pending
  | completed
  | failed
  | cancelled
deriving Repr, DecidableEq

/-- Ledger entry (src/src/models/PasswordReset.js, `transactionSchema`).
`wallet_user` stands for `wallet_id` (wallets are keyed by their unique
`user_id`).  The display-only `description`, `currency` and `ride_details`
fields are omitted: no control flow reads them. -/
structure Transaction where
  id : Nat
  wallet_user : Nat
  user_id : Nat
  txType : TransactionType
  amount : Int
  gross_amount : Int
  fee_amount : Int
  fee_percentage : Nat
  net_amount : Int
  status : TransactionStatus
  reference_id : Option Nat
  stripe_payment_intent_id : Option Nat
  stripe_transfer_id : Option Nat
deriving Repr, DecidableEq

/-- Payout status (part_006 lines 250-256). -/
inductive PayoutStatus
  | pending
  | processing
  | completed
  | failed
  | cancelled
deriving Repr, DecidableEq

/-- Payout (part_006, `payoutSchema`). -/
structure Payout where
  id : Nat
  user_id : Nat
  amount : Int
  status : PayoutStatus
  stripe_payout_id : Option Nat
  stripe_transfer_id : Option Nat
  transaction_id : Option Nat
deriving Repr, DecidableEq

/-- Stripe-side payment-intent state, as observed through
`stripe.paymentIntents.retrieve`. -/
inductive IntentStatus
  | succeeded
  | requires_action
  | failed
deriving Repr, DecidableEq

/-- A PSP payment intent together with the metadata the controllers attach
to it (src/src/controllers/rideRequestController.js lines 1268-1279).
`hasTransferData` records whether the intent carried `transfer_data`
(a split to a connected account). -/
structure PaymentIntent where
  id : Nat
  amount : Nat
  status : IntentStatus
  hasTransferData : Bool
  meta_rideId : Option Nat
  meta_driverId : Option Nat
  meta_passengerId : Option Nat
  meta_bookingId : Option Nat
  meta_seats : Nat
deriving Repr, DecidableEq

/-- Offer status (part_006 lines 108-112). -/
inductive OfferStatus
  | pending
  | accepted
  | rejected
deriving Repr, DecidableEq

/-- Offer embedded in a ride request (part_006 lines 96-118). -/
structure Offer where
  id : Nat
  driver : Nat
  ride : Option Nat
  price_per_seat : Nat
  status : OfferStatus
deriving Repr, DecidableEq

/-- Ride request status (part_006 lines 81-85). -/
inductive RequestStatus
  | pending
  | matched
  | accepted
  | cancelled
  | expired
deriving Repr, DecidableEq

/-- RideRequest (part_006).  The schema declares no `payment_status` path
(and the offer sub-schema no `payment_method`/`paid_at`), so a RideRequest
document never stores a payment status: the controller writes
`request.payment_status = "paid"` (rideRequestController.js line 969),
`offer.payment_method` and `offer.paid_at` (lines 956-957) all target
undeclared paths and are dropped by Mongoose strict mode on `save()`. -/
structure RideRequest where
  id : Nat
  passenger : Nat
  seats_needed : Nat
  status : RequestStatus
  offers : List Offer
  matched_driver : Option Nat
  matched_ride : Option Nat
deriving Repr, DecidableEq

/-- Rating type (src/src/models/Rating.js lines 29-34). -/
inductive RatingType
  | driver_to_passenger
  | passenger_to_driver
deriving Repr, DecidableEq

/-- Rating (src/src/models/Rating.js).  The compound unique index on
`(booking_id, from_user, to_user)` (lines 55-58) is enforced through the
`findOne` guard at the create site. -/
structure Rating where
  id : Nat
  from_user : Nat
  to_user : Nat
  booking_id : Nat
  ride_id : Nat
  rtype : RatingType
  stars : Nat
deriving Repr, DecidableEq

/-- The whole persistent state: one document collection per model, plus the
PSP-side intents observable through `stripe.paymentIntents.retrieve`, and a
counter supplying fresh ObjectIds. -/
structure St where
  users : List User
  rides : List Ride
  bookings : List Booking
  wallets : List Wallet
  transactions : List Transaction
  payouts : List Payout
  requests : List RideRequest
  ratings : List Rating
  intents : List PaymentIntent
  nextId : Nat
deriving Repr, DecidableEq

/-! ## Collection helpers (Mongoose query/update primitives) -/

/-- Embeds `User.findById`. -/
def findUser (s : St) (id : Nat) : Option User :=
  s.users.find? (fun u => u.id == id)

/-- Embeds `Ride.findById`. -/
def findRide (s : St) (id : Nat) : Option Ride :=
  s.rides.find? (fun r => r.id == id)

/-- Embeds `Booking.findById`. -/
def findBooking (s : St) (id : Nat) : Option Booking :=
  s.bookings.find? (fun b => b.id == id)

/-- Embeds `RideRequest.findById`. -/
def findRequest (s : St) (id : Nat) : Option RideRequest :=
  s.requests.find? (fun r => r.id == id)

/-- Embeds `Wallet.findOne({user_id})`. -/
def findWallet (s : St) (userId : Nat) : Option Wallet :=
  s.wallets.find? (fun w => w.user_id == userId)

/-- Embeds `PaymentIntent` lookup: `stripe.paymentIntents.retrieve`. -/
def findIntent (s : St) (id : Nat) : Option PaymentIntent :=
  s.intents.find? (fun i => i.id == id)

/-- Replace the ride with the same id (persisting a ride update). -/
def saveRide (s : St) (r : Ride) : St :=
  { s with rides := s.rides.map (fun x => if x.id == r.id then r else x) }

/-- Replace the booking with the same id (persisting a booking update). -/
def saveBooking (s : St) (b : Booking) : St :=
  { s with bookings := s.bookings.map (fun x => if x.id == b.id then b else x) }

/-- Replace the wallet of the same user (persisting `wallet.save()`). -/
def saveWallet (s : St) (w : Wallet) : St :=
  { s with wallets :=
      s.wallets.map (fun x => if x.user_id == w.user_id then w else x) }

/-- Replace the request with the same id (persisting `request.save()`). -/
def saveRequest (s : St) (r : RideRequest) : St :=
  { s with requests := s.requests.map (fun x => if x.id == r.id then r else x) }

/-- Embeds `Wallet.getOrCreateWallet(userId)` (part_005 lines 178-184): find the
wallet, creating a zero-balance one when absent. -/
def getOrCreateWallet (s : St) (userId : Nat) : Wallet × St :=
  match findWallet s userId with
  | some w => (w, s)
  | none =>
      (Wallet.fresh userId,
       { s with wallets := s.wallets ++ [Wallet.fresh userId] })

/-- Balance of a user's wallet, if the wallet exists. -/
def walletBalance (s : St) (userId : Nat) : Option Int :=
  (findWallet s userId).map Wallet.balance

/-- Append a ledger entry with a fresh id (`Transaction.create`). -/
def addTransaction (s : St) (mk : Nat → Transaction) : St :=
  { s with transactions := s.transactions ++ [mk s.nextId],
           nextId := s.nextId + 1 }

/-- HTTP-level outcome of a handler: `ok code` for a success response,
`err code` for an error response (including errors forwarded to the global
error handler as 500). -/
inductive Resp
  | ok (code : Nat)
  | err (code : Nat)
deriving Repr, DecidableEq

/-- Whether a response is an error response. -/
def Resp.isErr : Resp → Bool
  | .ok _ => false
  | .err _ => true

/-! ## `Transaction.createRideEarning`
(src/src/models/PasswordReset.js lines 176-214) -/

/-- The platform fee recorded by `Transaction.createRideEarning`:
`Math.round(gross_amount * (fee_percentage / 100))` (line 186), under the
exact-rational reading of `Math.round`. -/
def createRideEarningFee (gross_amount fee_percentage : Nat) : Nat :=
  jsRoundPct gross_amount fee_percentage

/-- The net amount recorded by `Transaction.createRideEarning`:
`gross_amount - fee_amount` (line 187). -/
def createRideEarningNet (gross_amount fee_percentage : Nat) : Int :=
  (gross_amount : Int) - createRideEarningFee gross_amount fee_percentage

/-- The ledger entry produced by `Transaction.createRideEarning`
(lines 189-213): a completed `ride_earning` credit of the net amount. -/
def createRideEarningTx (walletUser userId : Nat)
    (gross_amount fee_percentage : Nat) (bookingRef : Option Nat)
    (intentId : Option Nat) (txId : Nat) : Transaction :=
  { id := txId
    wallet_user := walletUser
    user_id := userId
    txType := .ride_earning
    amount := createRideEarningNet gross_amount fee_percentage
    gross_amount := (gross_amount : Int)
    fee_amount := (createRideEarningFee gross_amount fee_percentage : Int)
    fee_percentage := fee_percentage
    net_amount := createRideEarningNet gross_amount fee_percentage
    status := .completed
    reference_id := bookingRef
    stripe_payment_intent_id := intentId
    stripe_transfer_id := none }

/-! ## Webhook handlers (src/src/controllers/walletController.js 552-852) -/

/-- Embeds `handlePaymentIntentSucceeded` (walletController.js lines 613-688).
Requires `rideId` and `driverId` metadata; looks up ride and driver;
gets-or-creates the driver's wallet; skips when a Transaction with the same
`stripe_payment_intent_id` already exists (lines 643-651); otherwise credits
the driver's wallet with the net amount via `wallet.addEarnings` and appends
a `ride_earning` transaction via `Transaction.createRideEarning`.
Note the handler never consults `driver.stripeAccountId`: the wallet credit
happens whether or not the driver has a connected account. -/
def handlePaymentIntentSucceeded (s : St) (pi : PaymentIntent)
    (feePercentage : Nat) : St :=
  match pi.meta_rideId, pi.meta_driverId with
  | some rideId, some driverId =>
    match findRide s rideId, findUser s driverId with
    | some _, some _ =>
      let ws := getOrCreateWallet s driverId
      let wallet := ws.1
      let s1 := ws.2
      let grossAmount := pi.amount
      let feeAmount := jsRoundPct grossAmount feePercentage
      let netAmount : Int := (grossAmount : Int) - (feeAmount : Int)
      if s1.transactions.any
          (fun t => t.stripe_payment_intent_id == some pi.id) then
        s1
      else
        -- booking lookup (lines 653-664), used for the ledger reference
        let bookingRef : Option Nat :=
          match pi.meta_bookingId with
          | some b => some b
          | none =>
              (s1.bookings.find? (fun bk =>
                bk.ride_id == rideId &&
                bk.passenger_id == pi.meta_passengerId.getD 0 &&
                bk.status == BookingStatus.accepted)).map Booking.id
        -- wallet.addEarnings(netAmount, false) (part_005 lines 187-195)
        let wallet2 := { wallet with
          balance := wallet.balance + netAmount,
          total_earned := wallet.total_earned + netAmount }
        let s2 := saveWallet s1 wallet2
        addTransaction s2 (fun txId =>
          createRideEarningTx driverId driverId grossAmount feePercentage
            bookingRef (some pi.id) txId)
    | _, _ => s
  | _, _ => s

/-- Embeds `handleChargeRefunded` (walletController.js lines 805-852).  Finds the
original `ride_earning` transaction by payment-intent id; computes the
driver share of the refunded amount (`originalTransaction.fee_percentage
|| 10`, a JavaScript falsy-default, so a stored 0 falls back to 10); if the
driver's wallet covers it, debits the wallet and appends a `refund`
transaction.  No guard checks whether this charge was already refunded. -/
def handleChargeRefunded (s : St) (paymentIntentId : Option Nat)
    (amountRefunded : Nat) : St :=
  match paymentIntentId with
  | none => s
  | some piId =>
    match s.transactions.find? (fun t =>
        t.stripe_payment_intent_id == some piId &&
        t.txType == TransactionType.ride_earning) with
    | none => s
    | some origTx =>
      let feePercentage :=
        if origTx.fee_percentage == 0 then 10 else origTx.fee_percentage
      let driverRefund := jsRoundShare amountRefunded feePercentage
      match findWallet s origTx.wallet_user with
      | none => s
      | some wallet =>
        if (driverRefund : Int) ≤ wallet.balance then
          let wallet2 := { wallet with
            balance := wallet.balance - driverRefund,
            total_earned := wallet.total_earned - driverRefund }
          let s2 := saveWallet s wallet2
          addTransaction s2 (fun txId =>
            { id := txId
              wallet_user := wallet.user_id
              user_id := origTx.user_id
              txType := .refund
              amount := -(driverRefund : Int)
              gross_amount := (amountRefunded : Int)
              fee_amount := (amountRefunded : Int) - (driverRefund : Int)
              fee_percentage := 10
              net_amount := (driverRefund : Int)
              status := .completed
              reference_id := origTx.reference_id
              stripe_payment_intent_id := some piId
              stripe_transfer_id := none })
        else s

/-! ## Withdrawals (`requestWithdrawal`, walletController.js 146-298) -/

/-- Embeds `Payout.findOne({user_id, status: {$in: ["pending","processing"]}})`
(walletController.js lines 195-198). -/
def hasInflightPayout (s : St) (userId : Nat) : Bool :=
  s.payouts.any (fun p =>
    p.user_id == userId &&
    (p.status == PayoutStatus.pending ||
     p.status == PayoutStatus.processing))

/-- Number of pending-or-processing payouts of a user. -/
def inflightPayoutCount (s : St) (userId : Nat) : Nat :=
  s.payouts.countP (fun p =>
    p.user_id == userId &&
    (p.status == PayoutStatus.pending ||
     p.status == PayoutStatus.processing))

/-- The state committed by the mutation phase of `requestWithdrawal`
(walletController.js lines 213-293), entered only after every guard has
passed.  It creates the payout request, debits the wallet
(`wallet.withdraw`), records the withdrawal transaction, and then attempts
the Stripe transfer: on success the payout is marked processing
(`markProcessing(null, transfer.id)`, so `stripe_payout_id` stays null) and
the transaction completed; on a Stripe error the wallet is refunded
(`refundWithdrawal`), the payout marked failed, and the transaction marked
failed.  The committed documents reflect the final `save()` of each. -/
def requestWithdrawalCommit (s : St) (userId : Nat) (amount : Int)
    (wallet : Wallet) (stripeOk : Bool) : Resp × St :=
  let payoutId := s.nextId
  let txId := s.nextId + 1
  let transferId := s.nextId + 2
  let s1 := { s with nextId := s.nextId + 3 }
  if stripeOk then
    let payout : Payout :=
      { id := payoutId, user_id := userId, amount := amount,
        status := .processing, stripe_payout_id := none,
        stripe_transfer_id := some transferId,
        transaction_id := some txId }
    let wallet2 := { wallet with
      balance := wallet.balance - amount,
      total_withdrawn := wallet.total_withdrawn + amount }
    let tx : Transaction :=
      { id := txId, wallet_user := userId, user_id := userId,
        txType := .withdrawal, amount := -amount, gross_amount := amount,
        fee_amount := 0, fee_percentage := 10, net_amount := amount,
        status := .completed, reference_id := some payoutId,
        stripe_payment_intent_id := none,
        stripe_transfer_id := some transferId }
    (.ok 200,
     { saveWallet s1 wallet2 with
        payouts := s1.payouts ++ [payout],
        transactions := s1.transactions ++ [tx] })
  else
    let payout : Payout :=
      { id := payoutId, user_id := userId, amount := amount,
        status := .failed, stripe_payout_id := none,
        stripe_transfer_id := none, transaction_id := some txId }
    -- withdraw then refundWithdrawal: the wallet ends unchanged
    let wallet2 := { wallet with
      balance := wallet.balance - amount + amount,
      total_withdrawn := wallet.total_withdrawn + amount - amount }
    let tx : Transaction :=
      { id := txId, wallet_user := userId, user_id := userId,
        txType := .withdrawal, amount := -amount, gross_amount := amount,
        fee_amount := 0, fee_percentage := 10, net_amount := amount,
        status := .failed, reference_id := some payoutId,
        stripe_payment_intent_id := none, stripe_transfer_id := none }
    (.err 500,
     { saveWallet s1 wallet2 with
        payouts := s1.payouts ++ [payout],
        transactions := s1.transactions ++ [tx] })

/-- Embeds `requestWithdrawal` (walletController.js lines 146-298): the guard
sequence — positive amount, minimum 500 cents, user exists, wallet
balance sufficient, Stripe account connected, no pending-or-processing
payout — followed by the mutation phase.  `stripeOk` is the outcome of the
external `stripe.transfers.create` call. -/
def requestWithdrawal (s : St) (userId : Nat) (amount : Int)
    (stripeOk : Bool) : Resp × St :=
  if amount ≤ 0 then (.err 400, s)
  else if amount < 500 then (.err 400, s)
  else
    match findUser s userId with
    | none => (.err 500, s)
    | some user =>
      let ws := getOrCreateWallet s userId
      let wallet := ws.1
      let s1 := ws.2
      if wallet.balance < amount then (.err 400, s1)
      else if user.stripeAccountId.isNone then (.err 400, s1)
      else if hasInflightPayout s1 userId then (.err 400, s1)
      else requestWithdrawalCommit s1 userId amount wallet stripeOk

/-! ## Shared refund building block

The driver-earnings reversal block is duplicated verbatim at four source
sites: bookingController.js lines 455-505 (card) and 548-578 (wallet), and
part_012 lines 775-825 (card) and 879-905 (wallet). -/

/-- Get-or-create the driver's wallet; when its balance covers the driver
share, debit balance and `total_earned` and append a negative `refund`
transaction referencing the booking; otherwise log and leave the wallet
untouched. -/
def driverEarningsReversal (s : St) (driverId : Nat)
    (grossAmount driverEarnings : Nat) (bookingId : Nat)
    (pid : Option Nat) : St :=
  let dws := getOrCreateWallet s driverId
  let dw := dws.1
  let s1 := dws.2
  if (driverEarnings : Int) ≤ dw.balance then
    let s2 := saveWallet s1 { dw with
      balance := dw.balance - driverEarnings,
      total_earned := dw.total_earned - driverEarnings }
    addTransaction s2 (fun txId =>
      { id := txId, wallet_user := driverId, user_id := driverId,
        txType := .refund, amount := -(driverEarnings : Int),
        gross_amount := (grossAmount : Int), fee_amount := 0,
        fee_percentage := 0, net_amount := (driverEarnings : Int),
        status := .completed, reference_id := some bookingId,
        stripe_payment_intent_id := pid, stripe_transfer_id := none })
  else s1

/-! ## Booking transitions (`BookingController.updateBooking`,
src/src/controllers/bookingController.js lines 217-726) -/

/-- The seats-change branch (bookingController.js lines 273-311): only the
passenger may change seats, only while pending, and a positive delta must
fit the remaining capacity.  The change is applied to the in-memory
document only; it is persisted by the final `save()`. -/
def updateBookingSeats (b : Booking) (ride : Ride) (isPassenger : Bool)
    (newSeats : Option Nat) : Except Resp Booking :=
  match newSeats with
  | none => .ok b
  | some n =>
    if n == 0 then .ok b
    else if n == b.seats then .ok b
    else if !isPassenger then .error (.err 403)
    else if b.status != BookingStatus.pending then .error (.err 400)
    else
      let seatsDifference : Int := (n : Int) - (b.seats : Int)
      if seatsDifference > 0 ∧ ride.seats_left < seatsDifference then
        .error (.err 400)
      else .ok { b with seats := n }

/-- The passenger-cancellation refund block (bookingController.js lines
379-604).  Returns the persisted state after the wallet/ledger effects and
the in-memory booking document as it stands when control leaves the
`try`/`catch`.

The source declares `const refund` inside the card branch (line 418) but
reads `refund.id` in the shared marking block after both branches
(line 592): that read throws a `ReferenceError`, which the `catch` at line
595 swallows.  Consequently the shared block only ever executes its first
statement `booking.payment_status = "refunded"` (line 591); `refund_id`,
`refunded_at` and `refund_reason` are set only where an individual branch
sets them (the wallet branch, lines 585-587). -/
def processCancelRefund (s : St) (b : Booking) (ride : Ride) (now : Int)
    (feePercent : Nat) (stripeRefundOk : Bool) : St × Booking :=
  match b.payment_method, b.payment_intent_id with
  | some .card, some pid =>
    match findIntent s pid, stripeRefundOk with
    | some intent, true =>
        -- stripe.refunds.create succeeded (line 418)
        let refundAmount := intent.amount
        let pws := getOrCreateWallet s b.passenger_id
        let s1 := saveWallet pws.2
          { pws.1 with balance := pws.1.balance + refundAmount }
        let s2 := addTransaction s1 (fun txId =>
          { id := txId, wallet_user := b.passenger_id,
            user_id := b.passenger_id, txType := .refund,
            amount := (refundAmount : Int),
            gross_amount := (refundAmount : Int), fee_amount := 0,
            fee_percentage := 0, net_amount := (refundAmount : Int),
            status := .completed, reference_id := some b.id,
            stripe_payment_intent_id := some pid,
            stripe_transfer_id := none })
        let s3 :=
          if ((findUser s2 ride.driver_id).bind User.stripeAccountId)
              == none then
            let grossAmount := ride.price_per_seat * b.seats * 100
            driverEarningsReversal s2 ride.driver_id grossAmount
              (jsRoundShare grossAmount feePercent) b.id (some pid)
          else s2
        -- lines 590-592: payment_status set, then ReferenceError on refund.id
        (s3, { b with payment_status := .refunded })
    | _, _ =>
        -- stripe.refunds.create threw; caught at line 595 before any write
        (s, b)
  | some .wallet, _ =>
      let totalAmount := ride.price_per_seat * b.seats * 100
      let driverEarnings := jsRoundShare totalAmount feePercent
      let pws := getOrCreateWallet s b.passenger_id
      let s1 := saveWallet pws.2
        { pws.1 with balance := pws.1.balance + totalAmount }
      let s2 := addTransaction s1 (fun txId =>
        { id := txId, wallet_user := b.passenger_id,
          user_id := b.passenger_id, txType := .refund,
          amount := (totalAmount : Int), gross_amount := (totalAmount : Int),
          fee_amount := 0, fee_percentage := 0,
          net_amount := (totalAmount : Int), status := .completed,
          reference_id := some b.id, stripe_payment_intent_id := none,
          stripe_transfer_id := none })
      let s3 := driverEarningsReversal s2 ride.driver_id totalAmount
        driverEarnings b.id none
      -- lines 585-587 set the refund fields, then lines 590-592 re-set
      -- payment_status and throw the ReferenceError (caught at 595)
      (s3, { b with payment_status := .refunded, refunded_at := some now,
                    refund_reason := some .passenger_cancelled })
  | _, _ =>
      -- paid booking matching neither branch: only lines 590-592 run
      (s, { b with payment_status := .refunded })

/-- The final `booking.save()` (bookingController.js line 668): Mongoose
runs the schema validators on the in-memory document; a validation failure
rejects, the outer `catch` forwards the `ValidationError` to the global
error handler (part_008), which answers 400, and the document is not
persisted. -/
def finishBookingSave (s : St) (b : Booking) : Resp × St :=
  if b.validates then (.ok 200, saveBooking s b) else (.err 400, s)

/-- Embeds `BookingController.updateBooking` (bookingController.js lines 217-726).
`stripeRefundOk` is the outcome of the external `stripe.refunds.create`
call in the cancellation path. -/
def updateBooking (s : St) (bookingId userId : Nat)
    (newStatus : Option BookingStatus) (newSeats : Option Nat)
    (now : Int) (feePercent : Nat) (stripeRefundOk : Bool) : Resp × St :=
  match findBooking s bookingId with
  | none => (.err 404, s)
  | some booking =>
  match findRide s booking.ride_id with
  | none => (.err 404, s)
  | some ride =>
  let isDriver := ride.driver_id == userId
  let isPassenger := booking.passenger_id == userId
  if !(isDriver || isPassenger) then (.err 403, s)
  else
    match updateBookingSeats booking ride isPassenger newSeats with
    | .error e => (e, s)
    | .ok b1 =>
      let oldStatus := b1.status
      match newStatus with
      | none => finishBookingSave s b1
      | some st =>
        if st == oldStatus then finishBookingSave s b1
        else if st == BookingStatus.accepted ||
                st == BookingStatus.rejected then
          if !isDriver then (.err 403, s)
          else if oldStatus != BookingStatus.pending then (.err 400, s)
          else if st == BookingStatus.accepted then
            -- capacity reservation (lines 616-651)
            if ride.seats_left < (b1.seats : Int) then (.err 400, s)
            else if b1.luggage_count > 0 ∧
                ride.luggage_left < (b1.luggage_count : Int) then
              (.err 400, s)
            else
              let ride2 := { ride with
                seats_left := ride.seats_left - (b1.seats : Int),
                luggage_left :=
                  if b1.luggage_count > 0 then
                    ride.luggage_left - (b1.luggage_count : Int)
                  else ride.luggage_left }
              finishBookingSave (saveRide s ride2)
                { b1 with status := .accepted }
          else finishBookingSave s { b1 with status := .rejected }
        else if st == BookingStatus.cancelled then
          if !isPassenger then (.err 403, s)
          else if !(oldStatus == BookingStatus.pending ||
                    oldStatus == BookingStatus.accepted) then (.err 400, s)
          else if ride.datetime_start - now < 24 * 60 ∧
              oldStatus == BookingStatus.accepted then (.err 400, s)
          else
            let rs :=
              if b1.payment_status == PaymentStatus.paid then
                processCancelRefund s b1 ride now feePercent stripeRefundOk
              else (s, b1)
            let b2 := { rs.2 with status := BookingStatus.cancelled }
            -- capacity release (lines 652-665)
            let s2 :=
              if oldStatus == BookingStatus.accepted then
                saveRide rs.1 { ride with
                  seats_left := ride.seats_left + (b2.seats : Int),
                  luggage_left :=
                    if b2.luggage_count > 0 then
                      ride.luggage_left + (b2.luggage_count : Int)
                    else ride.luggage_left }
              else rs.1
            finishBookingSave s2 b2
        else finishBookingSave s { b1 with status := st }

/-! ## Ride cancellation (`RideController.cancel`, part_012 lines 638-969) -/

/-- One iteration of the refund loop of `RideController.cancel`
(part_012 lines 710-931).  Stripe refund ids are modelled by the refunded
intent's id.  The per-booking `catch` (lines 921-930) swallows errors,
leaving prior effects in place; the `findByIdAndUpdate` calls bypass
document validation. -/
def rideCancelRefundBooking (s : St) (ride : Ride) (driverId : Nat)
    (b : Booking) (now : Int) (feePercent : Nat)
    (stripeRefundOk : Bool) : St :=
  match b.payment_method, b.payment_intent_id with
  | some .card, some pid =>
    match findIntent s pid, stripeRefundOk with
    | some intent, true =>
        let refundAmount := intent.amount
        let pws := getOrCreateWallet s b.passenger_id
        let s1 := saveWallet pws.2
          { pws.1 with balance := pws.1.balance + refundAmount }
        let s2 := addTransaction s1 (fun txId =>
          { id := txId, wallet_user := b.passenger_id,
            user_id := b.passenger_id, txType := .refund,
            amount := (refundAmount : Int),
            gross_amount := (refundAmount : Int), fee_amount := 0,
            fee_percentage := 0, net_amount := (refundAmount : Int),
            status := .completed, reference_id := some b.id,
            stripe_payment_intent_id := some pid,
            stripe_transfer_id := none })
        let s3 :=
          if ((findUser s2 driverId).bind User.stripeAccountId) == none then
            let grossAmount := ride.price_per_seat * b.seats * 100
            driverEarningsReversal s2 driverId grossAmount
              (jsRoundShare grossAmount feePercent) b.id (some pid)
          else s2
        -- Booking.findByIdAndUpdate (lines 832-837)
        { s3 with bookings := s3.bookings.map (fun x =>
            if x.id == b.id then
              { x with payment_status := .refunded, refund_id := some pid,
                       refunded_at := some now,
                       refund_reason := some .ride_cancelled }
            else x) }
    | _, _ => s
  | some .wallet, _ =>
      let totalAmount := ride.price_per_seat * b.seats * 100
      let driverEarnings := jsRoundShare totalAmount feePercent
      let pws := getOrCreateWallet s b.passenger_id
      let s1 := saveWallet pws.2
        { pws.1 with balance := pws.1.balance + totalAmount }
      let s2 := addTransaction s1 (fun txId =>
        { id := txId, wallet_user := b.passenger_id,
          user_id := b.passenger_id, txType := .refund,
          amount := (totalAmount : Int), gross_amount := (totalAmount : Int),
          fee_amount := 0, fee_percentage := 0,
          net_amount := (totalAmount : Int), status := .completed,
          reference_id := some b.id, stripe_payment_intent_id := none,
          stripe_transfer_id := none })
      let s3 := driverEarningsReversal s2 driverId totalAmount
        driverEarnings b.id none
      -- Booking.findByIdAndUpdate (lines 907-911): no refund_id here
      { s3 with bookings := s3.bookings.map (fun x =>
          if x.id == b.id then
            { x with payment_status := .refunded, refunded_at := some now,
                     refund_reason := some .ride_cancelled }
          else x) }
  | _, _ => s

/-- Embeds `RideController.cancel` (part_012 lines 638-969): only the driver, only
more than 12 hours before departure; marks the ride cancelled, cancels all
pending/accepted bookings via `updateMany` (which leaves `seats_left` and
`luggage_left` untouched — no capacity restore happens anywhere in this
handler), then processes refunds for the previously captured paid
bookings. -/
def cancelRide (s : St) (rideId driverId : Nat) (now : Int)
    (feePercent : Nat) (stripeRefundOk : Bool) : Resp × St :=
  match findRide s rideId with
  | none => (.err 404, s)
  | some ride =>
    if ride.driver_id != driverId then (.err 403, s)
    else if ride.datetime_start - now < 12 * 60 then (.err 400, s)
    else
      let paidBookings := s.bookings.filter (fun b =>
        b.ride_id == rideId &&
        (b.status == BookingStatus.pending ||
         b.status == BookingStatus.accepted) &&
        b.payment_status == PaymentStatus.paid)
      let s1 := saveRide s { ride with status := .cancelled }
      let s2 := { s1 with bookings := s1.bookings.map (fun b =>
        if b.ride_id == rideId &&
           (b.status == BookingStatus.pending ||
            b.status == BookingStatus.accepted)
        then { b with status := .cancelled } else b) }
      let s3 := paidBookings.foldl (fun acc b =>
        rideCancelRefundBooking acc ride driverId b now feePercent
          stripeRefundOk) s2
      (.ok 200, s3)

/-! ## Payments (`rideRequestController.js`, second document, lines
1206-1917) -/

/-- The PSP intent request assembled by `createPaymentIntent`
(rideRequestController.js lines 1268-1290). -/
structure IntentRequestData where
  amount : Nat
  application_fee_amount : Option Nat
  transfer_destination : Option Nat
  meta_rideId : Nat
  meta_passengerId : Nat
  meta_driverId : Option Nat
  meta_seats : Nat
  meta_luggage_count : Nat
deriving Repr, DecidableEq

/-- Embeds `createPaymentIntent` (POST /api/v1/payments/create-intent,
rideRequestController.js lines 1220-1308).  The amount is
`Math.round(ride.price_per_seat * seats * 100)`: `price_per_seat` is stored
in major units, so the multiplication by 100 converts to cents.
`application_fee_amount` and `transfer_data` are attached only when the
driver has a Stripe Connect account. -/
def createPaymentIntent (s : St) (userId : Nat) (rideId : Option Nat)
    (seats luggage_count : Nat) (feePercent : Nat) :
    Except Resp IntentRequestData :=
  match rideId with
  | none => .error (.err 400)
  | some rid =>
    if seats == 0 then .error (.err 400)
    else match findRide s rid with
    | none => .error (.err 404)
    | some ride =>
      if ride.seats_left < (seats : Int) then .error (.err 400)
      else
        let driver := findUser s ride.driver_id
        let totalAmount := ride.price_per_seat * seats * 100
        let applicationFeeAmount := jsRoundPct totalAmount feePercent
        let base : IntentRequestData :=
          { amount := totalAmount, application_fee_amount := none,
            transfer_destination := none, meta_rideId := rid,
            meta_passengerId := userId,
            meta_driverId := driver.map User.id, meta_seats := seats,
            meta_luggage_count := luggage_count }
        match driver.bind User.stripeAccountId with
        | some acct =>
            .ok { base with
              application_fee_amount := some applicationFeeAmount,
              transfer_destination := some acct }
        | none => .ok base

/-- Embeds `completePayment` (POST /api/v1/payments/complete,
rideRequestController.js lines 1426-1559).  Verifies the intent succeeded,
re-checks seats (refunding on failure), creates the booking already
`accepted`+`paid` (refunding when the unique `(ride_id, passenger_id)`
index rejects the insert), decrements capacity, and credits the driver's
wallet only when the driver has no Stripe Connect account. -/
def completePayment (s : St) (userId : Nat)
    (paymentIntentId rideId : Option Nat) (seats luggage_count : Nat)
    (feePercent : Nat) : Resp × St :=
  match paymentIntentId, rideId with
  | some pid, some rid =>
    if seats == 0 then (.err 400, s)
    else match findIntent s pid with
    | none => (.err 500, s)
    | some intent =>
      if intent.status != IntentStatus.succeeded then (.err 400, s)
      else match findRide s rid with
      | none => (.err 404, s)
      | some ride =>
        if ride.seats_left < (seats : Int) then
          -- refund issued at the PSP; no database change
          (.err 400, s)
        else if s.bookings.any (fun b =>
            b.ride_id == rid && b.passenger_id == userId) then
          -- Booking.create rejected by the unique index; refund issued
          (.err 500, s)
        else
          let bookingId := s.nextId
          let booking : Booking :=
            { id := bookingId, ride_id := rid, passenger_id := userId,
              seats := seats, luggage_count := luggage_count,
              status := .accepted, payment_status := .paid,
              payment_method := some .card, payment_intent_id := some pid,
              refund_id := none, refunded_at := none, refund_reason := none }
          let s1 := { s with bookings := s.bookings ++ [booking],
                             nextId := s.nextId + 1 }
          let s2 := saveRide s1 { ride with
            seats_left := ride.seats_left - (seats : Int),
            luggage_left := ride.luggage_left - (luggage_count : Int) }
          let s3 :=
            if ((findUser s2 ride.driver_id).bind User.stripeAccountId)
                == none then
              let ws := getOrCreateWallet s2 ride.driver_id
              let grossAmount := intent.amount
              let feeAmount := jsRoundPct grossAmount feePercent
              let netAmount : Int := (grossAmount : Int) - (feeAmount : Int)
              let s4 := saveWallet ws.2 { ws.1 with
                balance := ws.1.balance + netAmount,
                total_earned := ws.1.total_earned + netAmount }
              addTransaction s4 (fun txId =>
                createRideEarningTx ride.driver_id ride.driver_id
                  grossAmount feePercent (some bookingId) (some pid) txId)
            else s2
          (.ok 201, s3)
  | _, _ => (.err 400, s)

/-- Embeds `payWithWallet` (POST /api/v1/payments/wallet,
rideRequestController.js lines 1674-1852).  After the guards, the passenger
wallet is debited and saved (lines 1741-1742) *before* `Booking.create`
(line 1745); when the insert is rejected by the unique
`(ride_id, passenger_id)` index the thrown error propagates to the outer
`catch` (line 1848) and `next(error)` — there is no compensation code, so
the debit stays committed. -/
def payWithWallet (s : St) (userId : Nat) (rideId : Option Nat)
    (seats luggage_count : Nat) (feePercent : Nat) : Resp × St :=
  match rideId with
  | none => (.err 400, s)
  | some rid =>
    if seats == 0 then (.err 400, s)
    else match findRide s rid with
    | none => (.err 404, s)
    | some ride =>
      if ride.driver_id == userId then (.err 400, s)
      else if ride.seats_left < (seats : Int) then (.err 400, s)
      else
        let totalAmount := ride.price_per_seat * seats * 100
        let pws := getOrCreateWallet s userId
        let pw := pws.1
        let s1 := pws.2
        if pw.balance < (totalAmount : Int) then (.err 400, s1)
        else
          -- the debit is committed first (lines 1740-1742)
          let s2 := saveWallet s1
            { pw with balance := pw.balance - (totalAmount : Int) }
          if s2.bookings.any (fun b =>
              b.ride_id == rid && b.passenger_id == userId) then
            -- duplicate-key error from Booking.create: no rollback
            (.err 500, s2)
          else
            let bookingId := s2.nextId
            let booking : Booking :=
              { id := bookingId, ride_id := rid, passenger_id := userId,
                seats := seats, luggage_count := luggage_count,
                status := .accepted, payment_status := .paid,
                payment_method := some .wallet, payment_intent_id := none,
                refund_id := none, refunded_at := none,
                refund_reason := none }
            let s3 := { s2 with bookings := s2.bookings ++ [booking],
                                nextId := s2.nextId + 1 }
            let s4 := saveRide s3 { ride with
              seats_left := ride.seats_left - (seats : Int),
              luggage_left := ride.luggage_left - (luggage_count : Int) }
            let s5 := addTransaction s4 (fun txId =>
              { id := txId, wallet_user := userId, user_id := userId,
                txType := .ride_payment, amount := -(totalAmount : Int),
                gross_amount := (totalAmount : Int), fee_amount := 0,
                fee_percentage := 0, net_amount := (totalAmount : Int),
                status := .completed, reference_id := some bookingId,
                stripe_payment_intent_id := none,
                stripe_transfer_id := none })
            let platformFee := jsRoundPct totalAmount feePercent
            let driverEarnings : Int :=
              (totalAmount : Int) - (platformFee : Int)
            let dws := getOrCreateWallet s5 ride.driver_id
            let s6 := saveWallet dws.2 { dws.1 with
              balance := dws.1.balance + driverEarnings,
              total_earned := dws.1.total_earned + driverEarnings }
            let s7 := addTransaction s6 (fun txId =>
              { id := txId, wallet_user := ride.driver_id,
                user_id := ride.driver_id, txType := .ride_earning,
                amount := driverEarnings,
                gross_amount := (totalAmount : Int),
                fee_amount := (platformFee : Int),
                fee_percentage := feePercent, net_amount := driverEarnings,
                status := .completed, reference_id := some bookingId,
                stripe_payment_intent_id := none,
                stripe_transfer_id := none })
            (.ok 201, s7)

/-! ## Offer acceptance (`rideRequestController.js`, first document) -/

/-- The offer flip shared textually by both acceptance endpoints
(rideRequestController.js lines 643-655 and 954-968): the chosen offer
becomes `accepted`, every other offer becomes `rejected`, the request
becomes `accepted` and records the matched driver and ride. -/
def flipOffers (request : RideRequest) (offerId : Nat) (offer : Offer) :
    RideRequest :=
  { request with
    offers := request.offers.map (fun o =>
      if o.id == offerId then { o with status := OfferStatus.accepted }
      else { o with status := OfferStatus.rejected }),
    status := .accepted,
    matched_driver := some offer.driver,
    matched_ride := offer.ride }

/-- Embeds `acceptOffer` (PUT /api/v1/ride-requests/:id/accept-offer,
rideRequestController.js lines 569-739).  No payment is taken and no
payment field is written: the request reaches `accepted` with the
wallets and the ledger untouched. -/
def acceptOffer (s : St) (requestId userId offerId : Nat) : Resp × St :=
  match s.requests.find? (fun r =>
      r.id == requestId && r.passenger == userId) with
  | none => (.err 404, s)
  | some request =>
    if request.status != RequestStatus.pending then (.err 400, s)
    else match request.offers.find? (fun o => o.id == offerId) with
    | none => (.err 404, s)
    | some offer =>
      (.ok 200, saveRequest s (flipOffers request offerId offer))

/-- Payment method parameter of `acceptOfferWithPayment`. -/
inductive PayMethodParam
  | wallet
  | card
  | invalid
deriving Repr, DecidableEq

/-- Embeds `acceptOfferWithPayment`
(POST /api/v1/ride-requests/:id/accept-offer-with-payment,
rideRequestController.js lines 742-1092).  Executes the payment (wallet
debit + ledger entries, or card-intent verification with a wallet credit
for drivers without Stripe Connect), then flips the offers and saves the
request.  The writes `request.payment_status = "paid"` (line 969),
`offer.payment_method` and `offer.paid_at` (lines 956-957) target paths
absent from the schema (part_006), so Mongoose strict mode drops them on
`save()`: the persisted request is exactly the offer flip, with no paid
mark. -/
def acceptOfferWithPayment (s : St) (requestId userId offerId : Nat)
    (method : PayMethodParam) (payment_intent_id : Option Nat)
    (feePercent : Nat) : Resp × St :=
  match s.requests.find? (fun r =>
      r.id == requestId && r.passenger == userId) with
  | none => (.err 404, s)
  | some request =>
    if request.status != RequestStatus.pending then (.err 400, s)
    else match request.offers.find? (fun o => o.id == offerId) with
    | none => (.err 404, s)
    | some offer =>
      if offer.status != OfferStatus.pending then (.err 400, s)
      else
        let totalAmount := offer.price_per_seat * request.seats_needed * 100
        let platformFee := jsRoundPct totalAmount feePercent
        let driverEarnings : Int := (totalAmount : Int) - (platformFee : Int)
        let commit : St → Resp × St := fun s9 =>
          (.ok 200, saveRequest s9 (flipOffers request offerId offer))
        match method with
        | .wallet =>
          let pws := getOrCreateWallet s userId
          let pw := pws.1
          let s1 := pws.2
          if pw.balance < (totalAmount : Int) then (.err 400, s1)
          else
            let s2 := saveWallet s1
              { pw with balance := pw.balance - (totalAmount : Int) }
            let s3 := addTransaction s2 (fun txId =>
              { id := txId, wallet_user := userId, user_id := userId,
                txType := .ride_payment, amount := -(totalAmount : Int),
                gross_amount := (totalAmount : Int), fee_amount := 0,
                fee_percentage := 0, net_amount := (totalAmount : Int),
                status := .completed, reference_id := some request.id,
                stripe_payment_intent_id := none,
                stripe_transfer_id := none })
            let dws := getOrCreateWallet s3 offer.driver
            let s4 := saveWallet dws.2 { dws.1 with
              balance := dws.1.balance + driverEarnings,
              total_earned := dws.1.total_earned + driverEarnings }
            let s5 := addTransaction s4 (fun txId =>
              { id := txId, wallet_user := offer.driver,
                user_id := offer.driver, txType := .ride_earning,
                amount := driverEarnings,
                gross_amount := (totalAmount : Int),
                fee_amount := (platformFee : Int),
                fee_percentage := feePercent, net_amount := driverEarnings,
                status := .completed, reference_id := some request.id,
                stripe_payment_intent_id := none,
                stripe_transfer_id := none })
            commit s5
        | .card =>
          match payment_intent_id with
          | none => (.err 400, s)
          | some pid =>
            match findIntent s pid with
            | none => (.err 500, s)
            | some intent =>
              if intent.status != IntentStatus.succeeded then (.err 400, s)
              else
                let s1 :=
                  if ((findUser s offer.driver).bind User.stripeAccountId)
                      == none then
                    let dws := getOrCreateWallet s offer.driver
                    let s2 := saveWallet dws.2 { dws.1 with
                      balance := dws.1.balance + driverEarnings,
                      total_earned := dws.1.total_earned + driverEarnings }
                    addTransaction s2 (fun txId =>
                      { id := txId, wallet_user := offer.driver,
                        user_id := offer.driver, txType := .ride_earning,
                        amount := driverEarnings,
                        gross_amount := (totalAmount : Int),
                        fee_amount := (platformFee : Int),
                        fee_percentage := feePercent,
                        net_amount := driverEarnings,
                        status := .completed,
                        reference_id := some request.id,
                        stripe_payment_intent_id := some pid,
                        stripe_transfer_id := none })
                  else s
                commit s1
        | .invalid => (.err 400, s)

/-! ## Ratings (`RatingController`, src/src/controllers/ratingController.js) -/

/-- The property `ride.departure_datetime` read by the rating window guards
(ratingController.js lines 52, 282, 403).  The Ride schema (part_007)
defines `datetime_start` and declares no `departure_datetime` path, so on
every Ride document this read yields `undefined`. -/
def Ride.departure_datetime (_ : Ride) : Option Int :=
  none

/-- The role/uniqueness tail of `createRating` (ratingController.js lines
65-124): determine the rating direction from the caller's role, reject a
duplicate `(booking_id, from_user, to_user)`, then insert the rating.
(The follow-up `updateUserRating` recomputes the target's cached mean,
which this model does not track.) -/
def createRatingRoles (s : St) (userId bid : Nat) (booking : Booking)
    (ride : Ride) (stars : Int) : Resp × St :=
  let driverId := ride.driver_id
  let passengerId := booking.passenger_id
  if userId == driverId ∨ userId == passengerId then
    let toUserId := if userId == driverId then passengerId else driverId
    let rtype : RatingType :=
      if userId == driverId then .driver_to_passenger
      else .passenger_to_driver
    if s.ratings.any (fun r =>
        r.booking_id == bid && r.from_user == userId &&
        r.to_user == toUserId) then
      (.err 400, s)
    else
      let rating : Rating :=
        { id := s.nextId, from_user := userId, to_user := toUserId,
          booking_id := bid, ride_id := ride.id, rtype := rtype,
          stars := stars.toNat }
      (.ok 201, { s with ratings := s.ratings ++ [rating],
                         nextId := s.nextId + 1 })
  else (.err 403, s)

/-- Embeds `createRating` (POST /api/v1/ratings, ratingController.js lines
15-134).  The 30-minute window guard (lines 52-63) is conditional on
`ride.departure_datetime`, which is undefined on every Ride document, so
the guard body never executes. -/
def createRating (s : St) (userId : Nat) (booking_id : Option Nat)
    (stars : Int) (now : Int) : Resp × St :=
  if stars < 1 ∨ 5 < stars then (.err 400, s)
  else match booking_id with
  | none => (.err 404, s)
  | some bid =>
    match findBooking s bid with
    | none => (.err 404, s)
    | some booking =>
      if booking.status != BookingStatus.accepted then (.err 400, s)
      else match findRide s booking.ride_id with
      | none => (.err 500, s)
      | some ride =>
        match ride.departure_datetime with
        | some dep =>
            if now < dep + 30 then (.err 400, s)
            else createRatingRoles s userId bid booking ride stars
        | none => createRatingRoles s userId bid booking ride stars

/-- The participant/duplicate tail of `canRateBooking`
(ratingController.js lines 298-331). -/
def canRateTail (s : St) (userId bookingId : Nat) (booking : Booking)
    (ride : Ride) : Bool :=
  let driverId := ride.driver_id
  let passengerId := booking.passenger_id
  if userId != driverId ∧ userId != passengerId then false
  else if s.ratings.any (fun r =>
      r.booking_id == bookingId && r.from_user == userId) then false
  else true

/-- Embeds `canRateBooking` (GET /api/v1/ratings/can-rate/:bookingId,
ratingController.js lines 248-355): returns the `canRate` flag, or an
error response.  As in `createRating`, the window guard at lines 282-296
reads the undefined `ride.departure_datetime` and is skipped. -/
def canRateBooking (s : St) (userId bookingId : Nat) (now : Int) :
    Except Resp Bool :=
  match findBooking s bookingId with
  | none => .error (.err 404)
  | some booking =>
    if booking.status != BookingStatus.accepted then .ok false
    else match findRide s booking.ride_id with
    | none => .error (.err 500)
    | some ride =>
      match ride.departure_datetime with
      | some dep =>
          if now < dep + 30 then .ok false
          else .ok (canRateTail s userId bookingId booking ride)
      | none => .ok (canRateTail s userId bookingId booking ride)

/-! ## Invariants -/

/-- Total seats held by accepted bookings of a ride (invariant I1). -/
def sumAcceptedSeats (s : St) (rideId : Nat) : Int :=
  (s.bookings.filter (fun b =>
    b.ride_id == rideId &&
    b.status == BookingStatus.accepted)).foldl
      (fun acc b => acc + (b.seats : Int)) 0

/-- Total luggage held by accepted bookings of a ride (invariant I2). -/
def sumAcceptedLuggage (s : St) (rideId : Nat) : Int :=
  (s.bookings.filter (fun b =>
    b.ride_id == rideId &&
    b.status == BookingStatus.accepted)).foldl
      (fun acc b => acc + (b.luggage_count : Int)) 0

/-- Invariant I1/I2 of the specification: for every ride, `seats_left`
equals `seats_total` minus the seats of its accepted bookings, and
similarly for luggage. -/
def capacityInvariant (s : St) : Bool :=
  s.rides.all (fun r =>
    r.seats_left == r.seats_total - sumAcceptedSeats s r.id &&
    r.luggage_left == r.luggage_capacity - sumAcceptedLuggage s r.id)

/-- Embeds `BookingController.create` (bookingController.js lines 15-140):
the guard sequence — ride exists, is active and in the future, the caller
is not its driver, no booking by the caller exists on it, seats and
luggage fit the remaining capacity — then a pending booking is created
without reserving capacity.  `Booking.create` runs the schema validators,
so a zero seat count is rejected. -/
def createBooking (s : St) (userId rideId : Nat) (seats luggage_count : Nat)
    (now : Int) : Resp × St :=
  match findRide s rideId with
  | none => (.err 404, s)
  | some ride =>
    if ride.status != RideStatus.active then (.err 400, s)
    else if ride.datetime_start ≤ now then (.err 400, s)
    else if ride.driver_id == userId then (.err 400, s)
    else if s.bookings.any (fun b =>
        b.ride_id == rideId && b.passenger_id == userId) then (.err 409, s)
    else if ride.seats_left < (seats : Int) then (.err 400, s)
    else if luggage_count > 0 ∧ ride.luggage_left < (luggage_count : Int) then
      (.err 400, s)
    else if seats == 0 then (.err 400, s)
    else
      let booking : Booking :=
        { id := s.nextId, ride_id := rideId, passenger_id := userId,
          seats := seats, luggage_count := luggage_count,
          status := .pending, payment_status := .pending,
          payment_method := none, payment_intent_id := none,
          refund_id := none, refunded_at := none, refund_reason := none }
      (.ok 201, { s with bookings := s.bookings ++ [booking],
                         nextId := s.nextId + 1 })

/-! ## Concrete fixture states -/

/-- An empty database. -/
def emptySt : St :=
  { users := [], rides := [], bookings := [], wallets := [],
    transactions := [], payouts := [], requests := [], ratings := [],
    intents := [], nextId := 100 }

/-- A ride used by several fixtures: ride 10, driver 2, departure at minute
10000, 3 seats total with 1 left (2 held by an accepted booking), price per
seat 20 euros. -/
def exRide : Ride :=
  { id := 10, driver_id := 2, datetime_start := 10000, seats_total := 3,
    seats_left := 1, luggage_capacity := 2, luggage_left := 2,
    price_per_seat := 20, status := .active }

/-- Fixture for C1: an active ride with one accepted (unpaid) booking of
2 seats; the capacity invariant holds. -/
def exSt1 : St :=
  { emptySt with
    users := [{ id := 1, stripeAccountId := none },
              { id := 2, stripeAccountId := none }],
    rides := [exRide],
    bookings := [{ id := 5, ride_id := 10, passenger_id := 1, seats := 2,
                   luggage_count := 0, status := .accepted,
                   payment_status := .pending, payment_method := none,
                   payment_intent_id := none, refund_id := none,
                   refunded_at := none, refund_reason := none }] }

/-- Ride 10 with all 3 seats free (no accepted booking yet). -/
def exRideOpen : Ride :=
  { exRide with seats_left := 3 }

/-- Fixture for C2: passenger 1 holds wallet balance 4000 and already has a
(pending) booking on ride 10, which has all seats free. -/
def exSt2 : St :=
  { exSt1 with
    rides := [exRideOpen],
    bookings := [{ id := 5, ride_id := 10, passenger_id := 1, seats := 1,
                   luggage_count := 0, status := .pending,
                   payment_status := .pending, payment_method := none,
                   payment_intent_id := none, refund_id := none,
                   refunded_at := none, refund_reason := none }],
    wallets := [{ user_id := 1, balance := 4000, pending_balance := 0,
                  total_earned := 0, total_withdrawn := 0 }] }

/-- Fixture for C3: a card-paid accepted booking of 2 seats on ride 10
(intent 77 of 4000 cents, succeeded), passenger wallet empty, driver wallet
holding the credited 3600 cents. -/
def exSt3 : St :=
  { emptySt with
    users := [{ id := 1, stripeAccountId := none },
              { id := 2, stripeAccountId := none }],
    rides := [exRide],
    bookings := [{ id := 5, ride_id := 10, passenger_id := 1, seats := 2,
                   luggage_count := 0, status := .accepted,
                   payment_status := .paid, payment_method := some .card,
                   payment_intent_id := some 77, refund_id := none,
                   refunded_at := none, refund_reason := none }],
    wallets := [{ user_id := 1, balance := 0, pending_balance := 0,
                  total_earned := 0, total_withdrawn := 0 },
                { user_id := 2, balance := 3600, pending_balance := 0,
                  total_earned := 3600, total_withdrawn := 0 }],
    intents := [{ id := 77, amount := 4000, status := .succeeded,
                  hasTransferData := false, meta_rideId := some 10,
                  meta_driverId := some 2, meta_passengerId := some 1,
                  meta_bookingId := none, meta_seats := 2 }] }

/-- Fixture for C4: a completed `ride_earning` ledger entry for intent 77
(gross 4000, fee 10 percent) and the driver wallet holding 2000 cents. -/
def exSt4 : St :=
  { emptySt with
    wallets := [{ user_id := 2, balance := 2000, pending_balance := 0,
                  total_earned := 2000, total_withdrawn := 0 }],
    transactions := [{ id := 50, wallet_user := 2, user_id := 2,
                       txType := .ride_earning, amount := 3600,
                       gross_amount := 4000, fee_amount := 400,
                       fee_percentage := 10, net_amount := 3600,
                       status := .completed, reference_id := some 5,
                       stripe_payment_intent_id := some 77,
                       stripe_transfer_id := none }] }

/-- Fixture for C5: driver 2 has a connected Stripe account (id 900) and an
empty wallet; no ledger entry exists for intent 77 yet. -/
def exSt5 : St :=
  { emptySt with
    users := [{ id := 1, stripeAccountId := none },
              { id := 2, stripeAccountId := some 900 }],
    rides := [exRide],
    wallets := [{ user_id := 2, balance := 0, pending_balance := 0,
                  total_earned := 0, total_withdrawn := 0 }] }

/-- The `payment_intent.succeeded` event payload for C5: a split payment
(4000 cents, transfer data attached) for ride 10 and driver 2. -/
def exPi5 : PaymentIntent :=
  { id := 77, amount := 4000, status := .succeeded,
    hasTransferData := true, meta_rideId := some 10,
    meta_driverId := some 2, meta_passengerId := some 1,
    meta_bookingId := none, meta_seats := 2 }

/-- Fixture for C7: ride 10 departs at minute 10000; booking 5 of
passenger 1 is accepted; no rating exists. -/
def exSt7 : St :=
  { emptySt with
    users := [{ id := 1, stripeAccountId := none },
              { id := 2, stripeAccountId := none }],
    rides := [exRide],
    bookings := [{ id := 5, ride_id := 10, passenger_id := 1, seats := 2,
                   luggage_count := 0, status := .accepted,
                   payment_status := .pending, payment_method := none,
                   payment_intent_id := none, refund_id := none,
                   refunded_at := none, refund_reason := none }] }

/-- Fixture for C6: the pending offer of driver 2 at 15 euros per seat. -/
def exOff6 : Offer :=
  { id := 30, driver := 2, ride := none, price_per_seat := 15,
    status := .pending }

/-- The C6 request document: a pending request of passenger 1 with two
pending offers and no payment. -/
def exReq6 : RideRequest :=
  { id := 20, passenger := 1, seats_needed := 1, status := .pending,
    offers := [exOff6,
               { id := 31, driver := 3, ride := none, price_per_seat := 18,
                 status := .pending }],
    matched_driver := none, matched_ride := none }

/-- The C6 database state. -/
def exSt6 : St :=
  { emptySt with
    users := [{ id := 1, stripeAccountId := none },
              { id := 2, stripeAccountId := none },
              { id := 3, stripeAccountId := none }],
    requests := [exReq6],
    wallets := [{ user_id := 1, balance := 2000, pending_balance := 0,
                  total_earned := 0, total_withdrawn := 0 }] }

/-- The C8 ride: all seats free, stored `price_per_seat` of 2000 (major
units). -/
def exRide8 : Ride :=
  { id := 10, driver_id := 2, datetime_start := 10000, seats_total := 3,
    seats_left := 3, luggage_capacity := 2, luggage_left := 2,
    price_per_seat := 2000, status := .active }

/-- Fixture for C8. -/
def exSt8 : St :=
  { emptySt with
    users := [{ id := 1, stripeAccountId := none },
              { id := 2, stripeAccountId := none }],
    rides := [exRide8] }

/-- Fixture for C10: user 4 with a connected account, wallet balance 1000,
and one processing payout of 700. -/
def exSt10 : St :=
  { emptySt with
    users := [{ id := 4, stripeAccountId := some 901 }],
    wallets := [{ user_id := 4, balance := 1000, pending_balance := 0,
                  total_earned := 1000, total_withdrawn := 0 }],
    payouts := [{ id := 60, user_id := 4, amount := 700,
                  status := .processing, stripe_payout_id := none,
                  stripe_transfer_id := some 71,
                  transaction_id := some 61 }] }

/-- Fixture for C1: ride 10 with all seats free and no booking yet; the C1
trace books it, accepts the booking, then cancels the ride. -/
def exSt0 : St :=
  { emptySt with
    users := [{ id := 1, stripeAccountId := none },
              { id := 2, stripeAccountId := none }],
    rides := [exRideOpen] }

/-- The C1 trace, step 1: passenger 1 books 2 seats (pending). -/
def exC1afterCreate : St :=
  (createBooking exSt0 1 10 2 0 9000).2

/-- The C1 trace, step 2: driver 2 accepts the booking (capacity
reserved). -/
def exC1afterAccept : St :=
  (updateBooking exC1afterCreate 100 2 (some .accepted) none 9000 10
    true).2

/-! ## Claim theorems -/

/-- C1: the capacity invariant I1/I2 is claimed to hold at every snapshot
reachable through the public operations, ride cancellation included.  It
does not: `RideController.cancel` cancels every pending/accepted booking
via `updateMany` without restoring `seats_left`/`luggage_left`.  The trace
below stays inside the public operations: from a fresh 3-seat ride,
passenger 1 books 2 seats, driver 2 accepts (the invariant holds at both
intermediate snapshots), then driver 2 cancels the ride 13 hours before
departure — the cancellation succeeds and the invariant is violated
(`seats_left` stays 1 while no accepted booking remains). -/
theorem C1_cancelRide_breaks_capacity_invariant :
    capacityInvariant exSt0 = true ∧
    (createBooking exSt0 1 10 2 0 9000).1 = Resp.ok 201 ∧
    capacityInvariant exC1afterCreate = true ∧
    (updateBooking exC1afterCreate 100 2 (some .accepted) none 9000 10
      true).1 = Resp.ok 200 ∧
    capacityInvariant exC1afterAccept = true ∧
    (cancelRide exC1afterAccept 10 2 9220 10 true).1 = Resp.ok 200 ∧
    capacityInvariant (cancelRide exC1afterAccept 10 2 9220 10 true).2 =
      false := by
  decide

/-- C2: wallet-payment atomicity is claimed — the debit is rolled back when
a later step fails.  It is not: with passenger 1 already booked on ride 10
and wallet balance 4000, `payWithWallet` debits the wallet, then
`Booking.create` is rejected by the unique `(ride_id, passenger_id)` index;
the error response is returned with the balance already reduced from 4000
to 0 and never restored. -/
theorem C2_payWithWallet_debit_not_rolled_back :
    (payWithWallet exSt2 1 (some 10) 2 0 10).1 = Resp.err 500 ∧
    walletBalance exSt2 1 = some 4000 ∧
    walletBalance (payWithWallet exSt2 1 (some 10) 2 0 10).2 1 = some 0 ∧
    (payWithWallet exSt2 1 (some 10) 2 0 10).2.bookings = exSt2.bookings := by
  decide

/-- C3: a passenger cancellation of a paid booking is claimed to commit
with the booking persisted as cancelled and refunded.  For a card-paid
booking whose Stripe refund succeeds it does not commit: the shared
marking block reads the out-of-scope `refund` binding, so only
`payment_status = "refunded"` is set, and the final `booking.save()` is
rejected by the schema validators (`refund_id`, `refunded_at`,
`refund_reason` required when refunded); the handler answers the
ValidationError as a 400 and the stored booking remains accepted and paid —
while the refund's wallet movements and the capacity release have already
been persisted. -/
theorem C3_card_cancellation_does_not_commit :
    (updateBooking exSt3 5 1 (some .cancelled) none 8500 10 true).1 =
      Resp.err 400 ∧
    (findBooking (updateBooking exSt3 5 1 (some .cancelled) none
        8500 10 true).2 5).map Booking.status =
      some BookingStatus.accepted ∧
    (findBooking (updateBooking exSt3 5 1 (some .cancelled) none
        8500 10 true).2 5).map Booking.payment_status =
      some PaymentStatus.paid ∧
    walletBalance (updateBooking exSt3 5 1 (some .cancelled) none
        8500 10 true).2 1 = some 4000 ∧
    (findRide (updateBooking exSt3 5 1 (some .cancelled) none
        8500 10 true).2 10).map Ride.seats_left = some 3 := by
  decide

/-- C4: webhook processing is claimed to be idempotent for every supported
event.  `charge.refunded` is not: `handleChargeRefunded` carries no
idempotency guard, so redelivering the same event (intent 77, 1000 cents
refunded) debits the driver's wallet a second time — 2000 to 1100 cents on
the first delivery, 1100 to 200 on the second — and appends a second
`refund` transaction. -/
theorem C4_chargeRefunded_not_idempotent :
    walletBalance (handleChargeRefunded exSt4 (some 77) 1000) 2 =
      some 1100 ∧
    walletBalance (handleChargeRefunded
        (handleChargeRefunded exSt4 (some 77) 1000) (some 77) 1000) 2 =
      some 200 ∧
    (handleChargeRefunded (handleChargeRefunded exSt4 (some 77) 1000)
        (some 77) 1000).transactions.countP
      (fun t => t.txType == TransactionType.refund) = 2 := by
  decide

/-- C5: on `payment_intent.succeeded` the wallet credit is claimed to be
skipped when the driver has a connected account.  `handlePaymentIntentSucceeded`
never consults `driver.stripeAccountId`: with driver 2 connected
(account 900) and no prior ledger entry for intent 77, the handler still
credits the driver's wallet with the net 3600 cents and appends a
`ride_earning` transaction. -/
theorem C5_connected_driver_still_credited :
    (findUser exSt5 2).bind User.stripeAccountId = some 900 ∧
    walletBalance exSt5 2 = some 0 ∧
    walletBalance (handlePaymentIntentSucceeded exSt5 exPi5 10) 2 =
      some 3600 ∧
    ((handlePaymentIntentSucceeded exSt5 exPi5 10).transactions.countP
      (fun t => t.txType == TransactionType.ride_earning)) = 1 := by
  decide

/-- C7: before departure + 30 minutes the rating endpoints are claimed to
reject.  The guards read `ride.departure_datetime`, a path the Ride schema
does not define, so the window check never fires: 29 minutes after a
departure at minute 10000 (and even 100 minutes before it),
`canRateBooking` answers `canRate = true` and `createRating` succeeds; the
duplicate guard alone works — a second rating of the same booking by the
same user is rejected. -/
theorem C7_rating_window_guard_dead :
    (canRateBooking exSt7 1 5 10029).toOption = some true ∧
    (createRating exSt7 1 (some 5) 4 10029).1 = Resp.ok 201 ∧
    (createRating exSt7 1 (some 5) 4 9900).1 = Resp.ok 201 ∧
    (createRating (createRating exSt7 1 (some 5) 4 10029).2 1 (some 5) 4
        10031).1 = Resp.err 400 := by
  decide

/-- Embeds `countP` respects pointwise-equal predicates. -/
theorem countPCongr {α : Type} (p q : α → Bool) :
    ∀ l : List α, (∀ a ∈ l, p a = q a) → l.countP p = l.countP q := by
  intro l
  induction l with
  | nil => intro _; rfl
  | cons x xs ih =>
      intro h
      simp only [List.countP_cons]
      rw [ih (fun a ha => h a (List.mem_cons_of_mem _ ha)),
        h x (List.mem_cons_self x xs)]

/-- C6 (amended): request status `accepted` is reachable through both
acceptance endpoints, and neither persists any payment status — the plain
`acceptOffer` takes no payment at all, while `acceptOfferWithPayment`
executes the payment but its `request.payment_status = "paid"` write
targets a path the schema does not declare, so on success the persisted
request is exactly the offer flip in both cases.  Either way the chosen
offer becomes the unique accepted offer (given the uniqueness of
subdocument ids), every other offer is rejected, and `matched_driver` is
the accepted offer's driver. -/
theorem C6_offer_acceptance_flip (s : St) (reqId uid offerId : Nat)
    (req : RideRequest) (off : Offer)
    (hfind : s.requests.find?
      (fun r => r.id == reqId && r.passenger == uid) = some req)
    (hpend : req.status = RequestStatus.pending)
    (hoff : req.offers.find? (fun o => o.id == offerId) = some off)
    (huniq : req.offers.countP (fun o => o.id == offerId) = 1) :
    acceptOffer s reqId uid offerId =
      (Resp.ok 200, saveRequest s (flipOffers req offerId off)) ∧
    (flipOffers req offerId off).status = RequestStatus.accepted ∧
    (flipOffers req offerId off).matched_driver = some off.driver ∧
    (flipOffers req offerId off).offers.countP
      (fun o => o.status == OfferStatus.accepted) = 1 ∧
    (∀ o ∈ (flipOffers req offerId off).offers,
        o.status = OfferStatus.accepted ∨ o.status = OfferStatus.rejected) ∧
    (∀ method pid p r2,
        acceptOfferWithPayment s reqId uid offerId method pid p =
          (Resp.ok 200, r2) →
        ∃ s9, r2 = saveRequest s9 (flipOffers req offerId off)) := by
  refine ⟨?_, rfl, rfl, ?_, ?_, ?_⟩
  · unfold acceptOffer
    rw [hfind]
    simp only [hpend, bne_self_eq_false, Bool.false_eq_true, if_false,
      ite_false, hoff]
  · show (req.offers.map _).countP _ = 1
    rw [List.countP_map]
    rw [countPCongr _ (fun o => o.id == offerId) _ ?_]
    · exact huniq
    · intro a _
      by_cases h : a.id = offerId
      · simp [h]
      · simp [h]
  · intro o ho
    simp only [flipOffers, List.mem_map] at ho
    obtain ⟨x, _, hx⟩ := ho
    by_cases h : x.id = offerId
    · left
      rw [← hx]
      simp [h]
    · right
      rw [← hx]
      simp [h]
  · intro method pid p r2 hrun
    unfold acceptOfferWithPayment at hrun
    rw [hfind] at hrun
    simp only [hpend, bne_self_eq_false, Bool.false_eq_true, if_false,
      ite_false, hoff] at hrun
    by_cases hos : off.status = OfferStatus.pending
    · simp only [hos, bne_self_eq_false, Bool.false_eq_true, if_false,
        ite_false] at hrun
      cases method with
      | wallet =>
          dsimp only [] at hrun
          split at hrun
          · simp at hrun
          · injection hrun with h1 h2
            exact ⟨_, h2.symm⟩
      | card =>
          dsimp only [] at hrun
          cases pid with
          | none => simp at hrun
          | some pdd =>
              dsimp only [] at hrun
              cases hint : findIntent s pdd with
              | none =>
                  rw [hint] at hrun
                  simp at hrun
              | some intent =>
                  rw [hint] at hrun
                  dsimp only [] at hrun
                  split at hrun
                  · simp at hrun
                  · injection hrun with h1 h2
                    exact ⟨_, h2.symm⟩
      | invalid => simp at hrun
    · rw [if_pos ?_] at hrun
      · exact absurd hrun (by simp)
      · simp [bne_iff_ne, hos]

/-- Witness for C6: the flip theorem applied to the concrete request of
`exSt6`, accepting offer 30. -/
theorem C6_offer_acceptance_flip_witness :
    acceptOffer exSt6 20 1 30 =
      (Resp.ok 200, saveRequest exSt6 (flipOffers exReq6 30 exOff6)) ∧
    (flipOffers exReq6 30 exOff6).status = RequestStatus.accepted ∧
    (flipOffers exReq6 30 exOff6).matched_driver = some exOff6.driver ∧
    (flipOffers exReq6 30 exOff6).offers.countP
      (fun o => o.status == OfferStatus.accepted) = 1 := by
  have h := C6_offer_acceptance_flip exSt6 20 1 30 exReq6 exOff6
    (by decide) (by decide) (by decide) (by decide)
  exact ⟨h.1, h.2.1, h.2.2.1, h.2.2.2.1⟩

/-- Counterexample for C6: `acceptOffer` moves the concrete pending request
of `exSt6` to `accepted` although no payment was taken — the passenger's
wallet and the ledger are untouched (so no `ridePayment` exists and the
request has not been paid for), refuting "status accepted is reached only
via paid offer acceptance: whenever a request has status accepted, its
paymentStatus is paid". -/
theorem C6_counter_accepted_without_payment :
    (acceptOffer exSt6 20 1 30).1 = Resp.ok 200 ∧
    (findRequest (acceptOffer exSt6 20 1 30).2 20).map RideRequest.status =
      some RequestStatus.accepted ∧
    walletBalance (acceptOffer exSt6 20 1 30).2 1 = walletBalance exSt6 1 ∧
    (acceptOffer exSt6 20 1 30).2.transactions = exSt6.transactions := by
  decide

/-- Counterexample for C8: on a ride document with `price_per_seat = 2000`
and 2 seats, the created intent carries amount 400000, not
pricePerSeat·seats = 4000: the controller computes
`Math.round(price_per_seat * seats * 100)` because the stored price is in
major units. -/
theorem C8_counter_intent_amount :
    (createPaymentIntent exSt8 1 (some 10) 2 0 10).toOption.map
      IntentRequestData.amount = some 400000 ∧
    ¬ (400000 = 2000 * 2) := by
  decide

/-- C8 (amended): `createPaymentIntent` creates one PSP intent request
whose amount is `price_per_seat · seats · 100` minor units
(`price_per_seat` being stored in major units, so a ride priced 20.00 EUR
per seat and 2 seats gives 4000); when the ride's driver has a connected
account the request carries `application_fee_amount =
round(amount · feePercent / 100)` and that account as transfer
destination, and otherwise carries neither. -/
theorem C8_createPaymentIntent_amount_split (s : St)
    (uid rid seats lug p : Nat) (ride : Ride)
    (hride : findRide s rid = some ride)
    (hseats : seats ≠ 0)
    (hcap : ¬ ride.seats_left < (seats : Int)) :
    ∃ d, createPaymentIntent s uid (some rid) seats lug p = .ok d ∧
      d.amount = ride.price_per_seat * seats * 100 ∧
      (∀ acct,
        (findUser s ride.driver_id).bind User.stripeAccountId = some acct →
        d.application_fee_amount =
          some (jsRoundPct (ride.price_per_seat * seats * 100) p) ∧
        d.transfer_destination = some acct) ∧
      ((findUser s ride.driver_id).bind User.stripeAccountId = none →
        d.application_fee_amount = none ∧
        d.transfer_destination = none) := by
  unfold createPaymentIntent
  dsimp only []
  rw [if_neg (by simpa using hseats), hride]
  dsimp only []
  rw [if_neg hcap]
  cases hacct : (findUser s ride.driver_id).bind User.stripeAccountId with
  | some acct =>
      refine ⟨_, rfl, rfl, ?_, ?_⟩
      · intro a ha
        injection ha with ha'
        subst ha'
        exact ⟨rfl, rfl⟩
      · intro h0
        cases h0
  | none =>
      refine ⟨_, rfl, rfl, ?_, fun _ => ⟨rfl, rfl⟩⟩
      intro a ha
      cases ha

/-- Witness for C8: the amended theorem evaluated on `exSt8` (driver
without a connected account). -/
theorem C8_createPaymentIntent_amount_split_witness :
    (createPaymentIntent exSt8 1 (some 10) 2 0 10).toOption.map
      IntentRequestData.amount = some 400000 ∧
    (createPaymentIntent exSt8 1 (some 10) 2 0 10).toOption.map
      IntentRequestData.transfer_destination = some none := by
  obtain ⟨d, hd, ham, -, hnone⟩ :=
    C8_createPaymentIntent_amount_split exSt8 1 10 2 0 10 exRide8
      (by decide) (by decide) (by decide)
  rw [hd]
  constructor
  · show some d.amount = some 400000
    rw [ham]
    decide
  · show some d.transfer_destination = some none
    rw [(hnone (by decide)).2]

/-- C9: for every ride-earning ledger append, the recorded fee is the
half-up rounding of `gross · pct / 100` (the exact-arithmetic reading of
`Math.round(gross_amount * (fee_percentage / 100))`), the net amount is
`gross − fee`, and net + fee recovers the gross exactly. -/
theorem C9_ride_earning_fee_arithmetic (g p : Nat) :
    createRideEarningFee g p = ⌊((g * p : Nat) : ℚ) / 100 + 1 / 2⌋₊ ∧
    createRideEarningNet g p = (g : Int) - (createRideEarningFee g p : Int) ∧
    createRideEarningNet g p + (createRideEarningFee g p : Int) = (g : Int)
    := by
  refine ⟨?_, rfl, ?_⟩
  · have h : ((g * p : Nat) : ℚ) / 100 + 1 / 2 =
        ((g * p + 50 : Nat) : ℚ) / 100 := by
      push_cast
      ring
    rw [h, Nat.floor_div_ofNat, Nat.floor_natCast]
    rfl
  · unfold createRideEarningNet
    ring

/-- Witness for C9: the fee arithmetic evaluated at gross 4000 cents and a
10 percent fee. -/
theorem C9_ride_earning_fee_arithmetic_witness :
    createRideEarningNet 4000 10 + (createRideEarningFee 4000 10 : Int) =
      (4000 : Int) :=
  (C9_ride_earning_fee_arithmetic 4000 10).2.2

/-- A state with no in-flight payout for a user counts zero in-flight
payouts for that user; helper for the C10 proof. -/
theorem inflightCountZero (s : St) (u : Nat)
    (h : hasInflightPayout s u = false) : inflightPayoutCount s u = 0 := by
  unfold hasInflightPayout at h
  unfold inflightPayoutCount
  rw [List.countP_eq_zero]
  intro q hq hpred
  have hany : s.payouts.any (fun p =>
      p.user_id == u &&
      (p.status == PayoutStatus.pending ||
       p.status == PayoutStatus.processing)) = true :=
    List.any_eq_true.mpr ⟨q, hq, hpred⟩
  rw [h] at hany
  exact Bool.false_ne_true hany

/-- C10: at most one in-flight withdrawal per user.  When a
pending-or-processing payout already exists for the user (whose wallet
exists), `requestWithdrawal` answers an error and leaves the whole state
unchanged — no payout, no transaction, no wallet mutation; and the
operation preserves the invariant that every user has at most one
pending-or-processing payout. -/
theorem C10_requestWithdrawal_single_inflight (s : St) (u : Nat) (a : Int)
    (ok : Bool) :
    ((findWallet s u).isSome → hasInflightPayout s u = true →
      (requestWithdrawal s u a ok).1.isErr = true ∧
      (requestWithdrawal s u a ok).2 = s) ∧
    ((∀ v, inflightPayoutCount s v ≤ 1) →
      ∀ v, inflightPayoutCount (requestWithdrawal s u a ok).2 v ≤ 1) := by
  have hpay : (getOrCreateWallet s u).2.payouts = s.payouts := by
    unfold getOrCreateWallet
    cases h : findWallet s u <;> rfl
  constructor
  · intro hw hinf
    obtain ⟨w, hw'⟩ := Option.isSome_iff_exists.mp hw
    have hg : getOrCreateWallet s u = (w, s) := by
      unfold getOrCreateWallet
      rw [hw']
    simp only [requestWithdrawal, hg]
    repeat' split
    all_goals exact ⟨rfl, rfl⟩
  · intro hbound v
    unfold requestWithdrawal
    split
    · exact hbound v
    split
    · exact hbound v
    split
    · exact hbound v
    · dsimp only []
      split
      · show inflightPayoutCount (getOrCreateWallet s u).2 v ≤ 1
        unfold inflightPayoutCount
        rw [hpay]
        exact hbound v
      split
      · show inflightPayoutCount (getOrCreateWallet s u).2 v ≤ 1
        unfold inflightPayoutCount
        rw [hpay]
        exact hbound v
      split
      · show inflightPayoutCount (getOrCreateWallet s u).2 v ≤ 1
        unfold inflightPayoutCount
        rw [hpay]
        exact hbound v
      · rename_i hninf
        have hzero0 : s.payouts.countP (fun p =>
            p.user_id == u &&
            (p.status == PayoutStatus.pending ||
             p.status == PayoutStatus.processing)) = 0 := by
          have h1 := inflightCountZero _ _ (Bool.not_eq_true _ ▸ hninf)
          unfold inflightPayoutCount at h1
          rwa [hpay] at h1
        unfold requestWithdrawalCommit
        split <;>
        · unfold inflightPayoutCount
          dsimp only []
          rw [hpay, List.countP_append]
          by_cases hv : u = v
          · subst hv
            rw [hzero0, Nat.zero_add]
            exact List.countP_le_length _
          · have hne : (u == v) = false := by simp [hv]
            simp only [List.countP_cons, List.countP_nil, hne,
              Bool.false_and, Bool.false_or, if_false]
            simp
            exact hbound v

/-- Witness for C10: on `exSt10` (one processing payout for user 4) a
second withdrawal request errors out and changes nothing, and the
at-most-one-in-flight bound is preserved. -/
theorem C10_requestWithdrawal_single_inflight_witness :
    (requestWithdrawal exSt10 4 600 true).1.isErr = true ∧
    (requestWithdrawal exSt10 4 600 true).2 = exSt10 ∧
    inflightPayoutCount (requestWithdrawal exSt10 4 600 true).2 4 ≤ 1 := by
  have h := C10_requestWithdrawal_single_inflight exSt10 4 600 true
  have h1 := h.1 (by decide) (by decide)
  refine ⟨h1.1, h1.2, h.2 ?_ 4⟩
  intro v
  exact le_trans (List.countP_le_length _) (by decide)

end Cov
